import Mathlib

/-!
Verification of the GSPy gas-turbine performance simulation core.

This file gives a shallow embedding, over an arbitrary linear ordered field
`K`, of the parts of the GSPy source that the verified properties talk
about:

* `gspy/core/turbomap.py`   : design-point map scaling and scaled evaluation;
* `gspy/core/control.py`    : sweep validation in the `TControl` constructor;
* `gspy/core/ambient.py`    : ambient temperature selection (`Tsa` vs `dTs`);
* `gspy/core/duct.py`       : the duct pressure-loss law;
* `f_inlet.py`              : the inlet's state/residual registration;
* `gspy/core/utils.py`      : `Compression` and `calculate_expansion_to_A`;
* `gspy/core/combustor.py`  : the LHV-mode end-condition calculation;
* `gspy/core/system.py`     : `reinit_system`, `Do_Run` and the OD sweep loop.

External numerical library calls (Cantera equation-of-state solves,
`math.sqrt`, `math.log`, SciPy root finds, the standard atmosphere) are
modelled as explicit function parameters, so every definition below is a
direct transcription of the Python control and data flow while the library
behaviour stays abstract.
-/

namespace GSPy

variable {K : Type} [LinearOrderedField K]

/-! ### Global constants (`gspy/core/sys_global.py`) -/

/-- Standard-day sea-level temperature `T_std = 288.15` (sys_global.py). -/
def T_std {K : Type} [LinearOrderedField K] : K := 288.15

/-- Standard-day sea-level pressure `P_std = 101325` (sys_global.py). -/
def P_std {K : Type} [LinearOrderedField K] : K := 101325

/-- Reference temperature `T_standard_ref = 298.15` for chemical gas model
calculations (sys_global.py). -/
def T_standard_ref {K : Type} [LinearOrderedField K] : K := 298.15

/-! ### Turbomachinery maps (`gspy/core/turbomap.py`)

The two bicubic interpolants built by `DefineInterpolationFunctions` are
modelled as abstract functions `get_map_wc`, `get_map_eta`, `get_map_pr`
of the map coordinates `(Nc, beta)`; the map file has already been read. -/

structure TTurboMap (K : Type) [LinearOrderedField K] where
  Ncmapdes : K
  Betamapdes : K
  get_map_wc : K → K → K
  get_map_eta : K → K → K
  get_map_pr : K → K → K
  SFmap_Nc : K := 1
  SFmap_Wc : K := 1
  SFmap_PR : K := 1
  SFmap_Eta : K := 1
  SF_wc_deter : K := 1
  SF_eta_deter : K := 1
  SF_pr_deter : K := 1
  Wcmapdes : K := 0
  PRmap : K := 0
  Etamap : K := 0
  Ncmap : K := 0
  Betamap : K := 0

/-- `TTurboMap.ReadMapAndSetScaling` (turbomap.py lines 115-129), the branch
with the map file present: evaluate the raw map at the declared map design
point and store the four scale factors. -/
def ReadMapAndSetScaling (m : TTurboMap K) (Ncdes Wcdes PRdes Etades : K) :
    TTurboMap K :=
  let SFmap_Nc := Ncdes / m.Ncmapdes
  let Wcmapdes := m.get_map_wc m.Ncmapdes m.Betamapdes
  let SFmap_Wc := Wcdes / Wcmapdes
  let PRmap := m.get_map_pr m.Ncmapdes m.Betamapdes
  let SFmap_PR := (PRdes - 1) / (PRmap - 1)
  let Etamap := m.get_map_eta m.Ncmapdes m.Betamapdes
  let SFmap_Eta := Etades / Etamap
  { m with
    SFmap_Nc := SFmap_Nc
    Wcmapdes := Wcmapdes
    SFmap_Wc := SFmap_Wc
    PRmap := PRmap
    SFmap_PR := SFmap_PR
    Etamap := Etamap
    SFmap_Eta := SFmap_Eta }

/-- `TTurboMap.GetScaledMapPerformance` (turbomap.py lines 136-146).
Returns the updated map object (the Python method stores `Ncmap` and
`Betamap` on `self`) together with the tuple `(Wc, PR, Eta)` it returns. -/
def GetScaledMapPerformance (m : TTurboMap K) (Nc Beta_state : K) :
    TTurboMap K × K × K × K :=
  let Ncmap := Nc / m.SFmap_Nc
  let Betamap := Beta_state * m.Betamapdes
  let wcmap := m.get_map_wc Ncmap Betamap
  let etamap := m.get_map_eta Ncmap Betamap
  let prmap := m.get_map_pr Ncmap Betamap
  let Wc := m.SFmap_Wc * wcmap * m.SF_wc_deter
  let Eta := m.SFmap_Eta * etamap * m.SF_eta_deter
  let PR := m.SFmap_PR * (prmap - 1) * m.SF_pr_deter + 1
  ({ m with Ncmap := Ncmap, Betamap := Betamap }, Wc, PR, Eta)

/-! ### Control sweep validation (`gspy/core/control.py`) -/

/-- The raise condition of `TControl.__init__` (control.py lines 23-39):
the constructor raises exactly when
`abs(OD_pointstepvalue) == 0 or (OD_endvalue - OD_startvalue) * OD_pointstepvalue < 0`. -/
def control_init_raises (OD_startvalue OD_endvalue OD_pointstepvalue : K) : Bool :=
  decide (|OD_pointstepvalue| = 0) ||
    decide ((OD_endvalue - OD_startvalue) * OD_pointstepvalue < 0)

/-! ### Ambient conditions (`gspy/core/ambient.py`)

The standard-atmosphere calls `alt2temp`, `alt2press` and
`temp2speed_of_sound` of the aerocalc library are abstract parameters. -/

structure AmbientResult (K : Type) where
  Tsa : K
  Psa : K
  Tta : K
  Pta : K
  V : K

/-- Rational part of `TAmbient.Run` (ambient.py lines 42-67): selection of
the static temperature and pressure from the optional user overrides `Tsa`,
`Psa` and the optional offset `dTs`, then the total conditions.  The
exponent `3.5` of the total-pressure formula is kept through the abstract
power function `powK` (Python `**`). -/
def TAmbient_Run (alt2temp alt2press temp2soundspeed : K → K) (powK : K → K → K)
    (Altitude Macha : K) (dTs Psa_in Tsa_in : Option K) : AmbientResult K :=
  let Tsa :=
    match Tsa_in with
    | some t => t
    | none =>
      let t := alt2temp Altitude
      match dTs with
      | some d => t + d
      | none => t
  let Psa :=
    match Psa_in with
    | some p => p
    | none => alt2press Altitude
  let Tta := Tsa * (1 + 0.2 * Macha ^ 2)
  let Pta := Psa * powK (Tta / Tsa) 3.5
  { Tsa := Tsa, Psa := Psa, Tta := Tta, Pta := Pta,
    V := Macha * temp2soundspeed Tsa }

/-! ### Gas-path components (`f_gaspath.py`, `gspy/core/duct.py`, `f_inlet.py`)

A gas-path station state is reduced to the fields the embedded components
read and write: mass flow, total temperature and total pressure.  The
`math.sqrt` call inside the flow-correction factor is an abstract
parameter `sqrtK`. -/

inductive Mode
  | DP
  | OD
deriving DecidableEq

structure GasQ (K : Type) where
  mass : K
  T : K
  P : K
deriving DecidableEq

/-- `GetFlowCorrectionFactor` (sys_global.py): `sqrt(T/T_std) / (P/P_std)`. -/
def GetFlowCorrectionFactor (sqrtK : K → K) (g : GasQ K) : K :=
  sqrtK (g.T / T_std) / (g.P / P_std)

structure TDuct (K : Type) [LinearOrderedField K] where
  PRdes : K
  Wcdes : K := 0
  Wc : K := 0
  PR : K := 1

structure DuctResult (K : Type) [LinearOrderedField K] where
  comp : TDuct K
  gasOut : GasQ K
  states : List K
  errors : List K

/-- `TDuct.Run` (duct.py lines 26-32) on top of `TGaspath.Run`
(f_gaspath.py): record (design) corrected flow, apply the quadratic
pressure-loss law `PR = 1 - (1 - PRdes) * (Wc/Wcdes)^2` and write the exit
state.  The global state and error vectors are passed through explicitly;
neither `TGaspath.Run` nor `TDuct.Run` mentions them. -/
def TDuct_Run (sqrtK : K → K) (c : TDuct K) (mode : Mode) (gasIn : GasQ K)
    (states errors : List K) : DuctResult K :=
  -- TGaspath.Run: (corrected) mass flow bookkeeping
  let Wc := gasIn.mass * GetFlowCorrectionFactor sqrtK gasIn
  let c1 :=
    match mode with
    | Mode.DP => { c with Wcdes := Wc, Wc := Wc }
    | Mode.OD => { c with Wc := Wc }
  -- TDuct.Run body: v1.2 dprel proportional to Wc^2
  let dprel := (1 - c1.PRdes) * (c1.Wc / c1.Wcdes) ^ 2
  let PR := 1 - dprel
  { comp := { c1 with PR := PR }
    gasOut := { mass := gasIn.mass, T := gasIn.T, P := gasIn.P * PR }
    states := states
    errors := errors }

structure TInlet (K : Type) [LinearOrderedField K] where
  Wdes : K
  PRdes : K
  wcdes : K := 0
  wc : K := 0
  PR : K := 1
  istate_wc : ℕ := 0

structure InletResult (K : Type) [LinearOrderedField K] where
  comp : TInlet K
  gasOut : GasQ K
  states : List K
  errors : List K
  RD_sys : K

/-- `TInlet.Run` (f_inlet.py lines 25-48).  In DP mode the design mass flow
is imposed, the corrected design flow recorded, one free state with value 1
appended (`fsys.states = np.append(fsys.states, 1)`), and the constant
design pressure ratio applied.  In OD mode the mass flow is recovered from
the registered state.  Ram drag `mass * V_flight` is accumulated into the
system total `RD`.  The error vector is passed through: `TInlet.Run` never
touches it. -/
def TInlet_Run (sqrtK : K → K) (c : TInlet K) (mode : Mode) (gasIn0 : GasQ K)
    (states errors : List K) (RD_sys V_flight : K) : InletResult K :=
  match mode with
  | Mode.DP =>
    -- gaspath_conditions[stationin].mass = Wdes; GasIn.mass = Wdes
    let gasIn := { gasIn0 with mass := c.Wdes }
    let wcdes := gasIn.mass * GetFlowCorrectionFactor sqrtK gasIn
    let states1 := states ++ [1]
    let c1 := { c with
      wcdes := wcdes, wc := wcdes, PR := c.PRdes,
      istate_wc := states1.length - 1 }
    let gasOut : GasQ K :=
      { mass := gasIn.mass, T := gasIn.T, P := gasIn.P * c1.PR }
    let RD := gasIn.mass * V_flight
    { comp := c1, gasOut := gasOut, states := states1, errors := errors,
      RD_sys := RD_sys + RD }
  | Mode.OD =>
    let wc := states.getD c.istate_wc 0 * c.wcdes
    let mass := wc / GetFlowCorrectionFactor sqrtK gasIn0
    let gasIn := { gasIn0 with mass := mass }
    let c1 := { c with wc := wc, PR := c.PRdes }
    let gasOut : GasQ K :=
      { mass := gasIn.mass, T := gasIn.T, P := gasIn.P * c1.PR }
    let RD := gasIn.mass * V_flight
    { comp := c1, gasOut := gasOut, states := states, errors := errors,
      RD_sys := RD_sys + RD }

/-! ### Thermodynamic utilities (`gspy/core/utils.py`)

A `ct.Quantity` is reduced to its mass and the specific state variables the
`Compression` routine manipulates.  The Cantera equation-of-state solves
behind the `SP` and `HP` assignments are the abstract functions `hOfSP`
(specific enthalpy reached by an `SP` assignment) and `sOfHP` (specific
entropy reached by an `HP` assignment); `math.log` is the parameter
`logK`. -/

structure EosQ (K : Type) where
  mass : K
  s : K
  P : K
  h : K

structure GasLib (K : Type) where
  hOfSP : K → K → K
  sOfHP : K → K → K

/-- `Compression` (utils.py lines 122-139).  With the polytropic flag the
exit entropy is set to `GasIn.s + R*log(PR)*(1/Eta - 1)` at `Pout =
GasIn.P*PR`; otherwise the exit state is taken isentropically at `Pout` and
the enthalpy rise divided by `Eta`.  The returned power is
`GasOut.H - GasOut.mass * GasIn.phase.enthalpy_mass`. -/
def Compression (lib : GasLib K) (logK : K → K) (gasIn gasOut : EosQ K)
    (PR Eta R : K) (Polytropic_Eta : Bool) : EosQ K × K :=
  if Polytropic_Eta then
    let Sout := gasIn.s + R * logK PR * (1 / Eta - 1)
    let Pout := gasIn.P * PR
    let gOut := { gasOut with s := Sout, P := Pout, h := lib.hOfSP Sout Pout }
    (gOut, gOut.mass * gOut.h - gOut.mass * gasIn.h)
  else
    let Sin := gasIn.s
    let Pout := gasIn.P * PR
    let g1 := { gasOut with s := Sin, P := Pout, h := lib.hOfSP Sin Pout }
    let Hisout := g1.h
    let Hout := gasIn.h + (Hisout - gasIn.h) / Eta
    let g2 := { g1 with h := Hout, s := lib.sOfHP Hout Pout }
    (g2, g2.mass * g2.h - g2.mass * gasIn.h)

/-- Failure raised by `calculate_expansion_to_A` on throat-pressure
non-convergence (`raise ValueError(...)` in utils.py line 100). -/
inductive RootFindFailure
  | throatPressureNoConvergence
deriving DecidableEq

/-- Gas model used by `calculate_expansion_to_A`: the state after a
`gas.SP = s, P` assignment, queried for enthalpy, sound speed, density and
temperature, plus the SciPy `root` call of the choked branch
(`throatSolve residual initial_guess`, `none` meaning no convergence). -/
structure NozzleGas (K : Type) where
  hOfSP : K → K → K
  aOfSP : K → K → K
  rhoOfSP : K → K → K
  TOfSP : K → K → K
  throatSolve : (K → K) → K → Option K

/-- `calculate_expansion_to_A` (utils.py lines 55-100).  In the subsonic
branch the result is returned directly; in the choked branch a root find on
the throat static pressure is attempted and non-convergence raises. -/
def calculate_expansion_to_A (sqrtK : K → K) (g : NozzleGas K)
    (s0 P0 pressure_ratio A : K) : Except RootFindFailure (K × K × K × K) :=
  let stagnation_enthalpy := g.hOfSP s0 P0
  let exit_pressure := P0 / pressure_ratio
  let exit_enthalpy := g.hOfSP s0 exit_pressure
  let dh := stagnation_enthalpy - exit_enthalpy
  -- allow backwards flow during iteration (avoiding complex number for velocity)
  let velocity := if dh < 0 then -sqrtK (2 * |dh|) else sqrtK (2 * dh)
  let Mout := velocity / g.aOfSP s0 exit_pressure
  if Mout < 1 then
    Except.ok (exit_pressure, g.TOfSP s0 exit_pressure, velocity,
      A * velocity * g.rhoOfSP s0 exit_pressure)
  else
    let throat_H_error := fun Ps_throat =>
      let dh1 := stagnation_enthalpy - g.hOfSP s0 Ps_throat
      (if dh1 < 0 then -sqrtK (2 * |dh1|) else sqrtK (2 * dh1)) -
        g.aOfSP s0 Ps_throat
    match g.throatSolve throat_H_error (P0 / 1.9) with
    | some Pth =>
      Except.ok (Pth, g.TOfSP s0 Pth, g.aOfSP s0 Pth,
        A * g.aOfSP s0 Pth * g.rhoOfSP s0 Pth)
    | none => Except.error RootFindFailure.throatPressureNoConvergence

/-! ### System orchestration (`gspy/core/system.py`)

The module-level globals of `system.py` (state and error vectors,
aggregate totals, shaft list, gas-path dictionary, output dictionary) are
gathered into one record `SysState`; the station and output dictionaries
and all remaining module state are abstracted into a field `env` of an
arbitrary type.  Each component's `Run`/`AddOutputToDict` pair and its
`PostRun` hook are arbitrary transformations of that record. -/

structure Shaft (K : Type) where
  ShaftNr : ℕ
  PW_sum : K
deriving DecidableEq

@[ext]
structure SysState (K : Type) (α : Type) where
  states : List K
  errors : List K
  FG : K
  FN : K
  RD : K
  WF : K
  shafts : List (Shaft K)
  env : α
deriving DecidableEq

structure Component (K : Type) (α : Type) where
  run : SysState K α → SysState K α
  postRun : SysState K α → SysState K α

/-- Shaft reset performed by `reinit_system`: `shaft.PW_sum = 0`. -/
def resetShaft (s : Shaft K) : Shaft K := { s with PW_sum := 0 }

/-- `reinit_system` (system.py lines 78-85): zero every shaft's power sum
and the aggregate totals `FG`, `FN`, `RD`, `WF`. -/
def reinit_system {α : Type} (s : SysState K α) : SysState K α :=
  { s with shafts := s.shafts.map resetShaft, FG := 0, FN := 0, RD := 0, WF := 0 }

/-- The forward walk of `Do_Run` after its initialization: run every
component in model order (`comp.Run` and `comp.AddOutputToDict`), add the
system output (`AddSystemOutputToDict`, abstracted as `addSysOut` since it
only writes the output dictionary inside `env`), then run every `PostRun`
hook. -/
def Do_Run_walk {α : Type} (system_model : List (Component K α))
    (addSysOut : SysState K α → SysState K α) (s : SysState K α) : SysState K α :=
  let s1 := system_model.foldl (fun acc c => c.run acc) s
  let s2 := addSysOut s1
  system_model.foldl (fun acc c => c.postRun acc) s2

/-- `Do_Run` (system.py lines 89-108): copy the trial state vector into the
globals, call `reinit_system`, then perform the forward walk.  The Python
function returns the global `errors`; here the whole final global record is
returned (its `errors` field is that return value). -/
def Do_Run {α : Type} (system_model : List (Component K α))
    (addSysOut : SysState K α → SysState K α) (states_par : List K)
    (s : SysState K α) : SysState K α :=
  Do_Run_walk system_model addSysOut (reinit_system { s with states := states_par })

/-- Convergence annotation written by `Do_Output` (system.py error code
constants `NoError = 0`, `ConvergenceError = 1`, `ExceptionError = 2`). -/
inductive ErrCode
  | NoError
  | ConvergenceError
  | ExceptionError
deriving DecidableEq

/-- The point loop of `Run_OD_simulation` (system.py lines 120-164) over an
abstract state-vector type `σ`.  For each input point, one SciPy
`root(residuals, states, ...)` call is abstracted as
`evalPoint point states`, returning either an exception (any exception
raised by the residual evaluation propagates out of `root`) or the final
trial vector together with `solution.success`.  The `try` block wraps the
whole loop: a success or non-convergence appends an output row (subject to
`points_output_interval`) and continues warm-started, while an exception
appends an exception-flagged row for the current point and leaves the loop,
so no later point is evaluated. -/
def Run_OD_points {σ : Type} (evalPoint : ℕ → σ → Except RootFindFailure (σ × Bool))
    (points_output_interval : ℕ) : σ → List ℕ → List (ℕ × ErrCode)
  | _, [] => []
  | st, p :: ps =>
    match evalPoint p st with
    | Except.error _ => [(p, ErrCode.ExceptionError)]
    | Except.ok (st1, success) =>
      (if p % points_output_interval = 0 then
        [(p, if success then ErrCode.NoError else ErrCode.ConvergenceError)]
      else []) ++ Run_OD_points evalPoint points_output_interval st1 ps

/-! ### Combustor end conditions (`gspy/core/combustor.py`)

The LHV fuel mode of `CalcEndConditions` (no composition string).  A
composition is the vector of the five species masses the routine writes
into the product composition string; a Cantera `TPY` assignment normalizes
them to mass fractions.  The real-gas library behind the `HP` assignments
and `equilibrate('HP')` is an abstract `ThermoLib`: `h T Y` is the specific
enthalpy at temperature `T` and (normalized) composition `Y` (for the
ideal-gas mixtures used it does not depend on pressure), `TfromH x Y`
solves `h T Y = x` for `T`, and `eqHP x P Y` is the equilibrium composition
at fixed specific enthalpy `x` and pressure `P`. -/

structure Composition (K : Type) where
  o2 : K
  co2 : K
  h2o : K
  ar : K
  n2 : K
deriving DecidableEq

def Composition.total (c : Composition K) : K :=
  c.o2 + c.co2 + c.h2o + c.ar + c.n2

def Composition.scale (a : K) (c : Composition K) : Composition K :=
  { o2 := a * c.o2, co2 := a * c.co2, h2o := a * c.h2o,
    ar := a * c.ar, n2 := a * c.n2 }

/-- Normalization performed by a Cantera `TPY` assignment: divide the
species masses by their total. -/
def Composition.normalize (c : Composition K) : Composition K :=
  Composition.scale (1 / c.total) c

/-- The air composition of sys_global.py (`Air_composition` mass
fractions). -/
def airComposition {K : Type} [LinearOrderedField K] : Composition K :=
  { o2 := 0.2314151, co2 := 0.00048469, h2o := 0, ar := 0.0129159,
    n2 := 0.75518431 }

structure ThermoLib (K : Type) where
  h : K → Composition K → K
  TfromH : K → Composition K → K
  eqHP : K → K → Composition K → Composition K

/-- `InitializeGas` (sys_global.py): the reference enthalpy `h_air_ref` of
air at `(T_standard_ref, P_standard_ref)`. -/
def h_air_ref (lib : ThermoLib K) : K :=
  lib.h T_standard_ref (Composition.normalize airComposition)

structure GasState (K : Type) where
  mass : K
  T : K
  P : K
  Y : Composition K

/-- Molar masses and atomic weights read from the reaction mechanism
(sys_global.py). -/
structure MechConstants (K : Type) where
  C_atom_weight : K
  H_atom_weight : K
  O_atom_weight : K
  O2_molar_mass : K
  CO2_molar_mass : K
  H2O_molar_mass : K

/-- The combustion product mass amounts of the LHV branch (combustor.py
lines 222-229), assuming complete combustion and air/fuel equivalence
ratio at least 1; `CHyOzMoleMass` as computed in `TCombustor.Run`
(line 353). -/
def LHV_products (mech : MechConstants K) (Wf w_air HCratio OCratio : K) :
    Composition K :=
  let CHyOzMoleMass := mech.C_atom_weight + mech.H_atom_weight * HCratio +
    mech.O_atom_weight * OCratio
  { o2 := w_air * airComposition.o2 +
      Wf / CHyOzMoleMass * (OCratio / 2 - 1 - HCratio / 4) * mech.O2_molar_mass
    co2 := mech.CO2_molar_mass * Wf / CHyOzMoleMass + w_air * airComposition.co2
    h2o := mech.H2O_molar_mass * Wf / CHyOzMoleMass * HCratio / 2
    ar := w_air * airComposition.ar
    n2 := w_air * airComposition.n2 }

/-- LHV-mode branch of `TCombustor.Run.CalcEndConditions` (combustor.py
lines 219-310) including the pressure-loss step: synthesize the complete
combustion product composition, place the product enthalpy from the energy
balance, equilibrate at fixed `(H, P)`, then apply
`Pout = Pin * PRfund * PRdes` with `PRfund = 1` when no Rayleigh reference
cross-section `A` is given.  `Pin`, `w_air` and `h_air_initial` are
captured from the inlet state as in `TCombustor.Run` (lines 336-341);
`h_air_ref_v` is the global reference enthalpy set by `InitializeGas`. -/
def CalcEndConditions_LHV (lib : ThermoLib K) (mech : MechConstants K)
    (rayleighPR : K → K) (Wf LHV Etades HCratio OCratio : K) (A : Option K)
    (gasIn : GasState K) (PRdes h_air_ref_v : K) : GasState K :=
  let Pin := gasIn.P
  let w_air := gasIn.mass
  let h_air_initial := lib.h gasIn.T gasIn.Y
  -- combustion product mass fractions, complete combustion with excess air
  let products := LHV_products mech Wf w_air HCratio OCratio
  -- GasOut.TPY = T_standard_ref, P_standard_ref, product_composition_mass
  let Yprod := products.normalize
  let h_prod_ref := lib.h T_standard_ref Yprod
  -- energy balance with the v1.3 Etades fix
  let h_prod_final := (Wf * LHV * 1000 * Etades +
    w_air * (h_air_initial - h_air_ref_v)) / (w_air + Wf) + h_prod_ref
  -- GasOut.HP = h_prod_final, Pin
  let T1 := lib.TfromH h_prod_final Yprod
  let mass1 := gasIn.mass + Wf
  -- GasOut.equilibrate('HP') at the current enthalpy and pressure
  let Yeq := lib.eqHP (lib.h T1 Yprod) Pin Yprod
  let T2 := lib.TfromH (lib.h T1 Yprod) Yeq
  -- pressure loss
  let PRfund :=
    match A with
    | none => 1
    | some a => if a = 0 then 1 else rayleighPR a
  let Pout := Pin * PRfund * PRdes
  -- GasOut.HP = GasOut.enthalpy_mass, Pout
  let T3 := lib.TfromH (lib.h T2 Yeq) Yeq
  { mass := mass1, T := T3, P := Pout, Y := Yeq }

/-! ### Concrete instances used for evaluations

Small concrete instantiations of the abstract library interfaces, used to
evaluate the embedded routines at explicit inputs. -/

/-- A nozzle gas model that is choked at the evaluated operating point
(isentropic velocity above the local sound speed) and whose SciPy throat
root find does not converge. -/
def failNozzleGas : NozzleGas ℚ :=
  { hOfSP := fun _ P => P
    aOfSP := fun _ _ => 1 / 2
    rhoOfSP := fun _ _ => 1
    TOfSP := fun _ _ => 1
    throatSolve := fun _ _ => none }

/-- Residual evaluation of a three-point OD sweep in which the evaluation
of point 1 runs into the raising throat-pressure solve of
`calculate_expansion_to_A`; the other points converge. -/
def sweepEval : ℕ → ℚ → Except RootFindFailure (ℚ × Bool) := fun p st =>
  if p = 1 then
    match calculate_expansion_to_A id failNozzleGas 0 1 2 1 with
    | Except.error e => Except.error e
    | Except.ok _ => Except.ok (st, true)
  else Except.ok (st, true)

/-- Point evaluation that always raises. -/
def alwaysRaiseEval : ℕ → ℚ → Except RootFindFailure (ℚ × Bool) :=
  fun _ _ => Except.error RootFindFailure.throatPressureNoConvergence

/-- Point evaluation that always converges. -/
def alwaysOkEval : ℕ → ℚ → Except RootFindFailure (ℚ × Bool) :=
  fun _ st => Except.ok (st, true)

/-- A concrete raw turbomachinery map. -/
def sampleMap : TTurboMap ℚ :=
  { Ncmapdes := 2
    Betamapdes := 1
    get_map_wc := fun n b => n * b
    get_map_eta := fun n _ => n
    get_map_pr := fun n b => n + b }

/-- A concrete gas model for `Compression`. -/
def sampleGasLib : GasLib ℝ := { hOfSP := fun s P => s + P, sOfHP := fun h P => h - P }

/-- A concrete inlet quantity for `Compression` with unit mass and zero
entropy and enthalpy. -/
def sampleEosQ : EosQ ℝ := { mass := 1, s := 0, P := 1, h := 0 }

/-- A trivial thermodynamic library: enthalpy equals temperature, the
enthalpy solve returns its target, equilibration keeps the composition. -/
def idThermoLib : ThermoLib ℚ :=
  { h := fun T _ => T
    TfromH := fun x _ => x
    eqHP := fun _ _ Y => Y }

/-- Unit mechanism constants. -/
def unitMech : MechConstants ℚ :=
  { C_atom_weight := 1, H_atom_weight := 1, O_atom_weight := 1,
    O2_molar_mass := 1, CO2_molar_mass := 1, H2O_molar_mass := 1 }

/-- A concrete combustor inlet state carrying air. -/
def sampleCombustorIn : GasState ℚ := { mass := 1, T := 300, P := 2, Y := airComposition }

/-- Two concrete system-global records that agree except in the aggregate
totals and shaft power sums. -/
def sampleSys1 : SysState ℚ Unit :=
  { states := [5], errors := [7], FG := 1, FN := 2, RD := 3, WF := 4,
    shafts := [⟨0, 9⟩], env := () }

def sampleSys2 : SysState ℚ Unit :=
  { states := [], errors := [7], FG := 0, FN := 0, RD := 0, WF := 0,
    shafts := [⟨0, 3⟩], env := () }

/-! ## Theorems -/

/-- C8: the `TControl` constructor raises at construction time if and only
if the sweep step is zero or the step's sign opposes the direction from
`OD_startvalue` to `OD_endvalue`, i.e.
`(OD_endvalue - OD_startvalue) * OD_pointstepvalue < 0`; a valid sweep
specification never raises. -/
theorem control_sweep_raise_iff (OD_startvalue OD_endvalue OD_pointstepvalue : K) :
    control_init_raises OD_startvalue OD_endvalue OD_pointstepvalue = true ↔
      OD_pointstepvalue = 0 ∨
        (OD_endvalue - OD_startvalue) * OD_pointstepvalue < 0 := by
  simp [control_init_raises, abs_eq_zero]

/-- C9: the Ambient evaluation adds the offset `dTs` to the
standard-atmosphere static temperature only when no explicit `Tsa` is
supplied; with an explicit `Tsa` a (nonzero) `dTs` is silently ignored and
the ambient static temperature is exactly the supplied `Tsa`. -/
theorem ambient_Tsa_overrides_dTs (alt2temp alt2press temp2soundspeed : K → K)
    (powK : K → K → K) (Altitude Macha d t : K) (Psa_in : Option K) :
    (TAmbient_Run alt2temp alt2press temp2soundspeed powK Altitude Macha
        (some d) Psa_in (some t)).Tsa = t ∧
    (TAmbient_Run alt2temp alt2press temp2soundspeed powK Altitude Macha
        (some d) Psa_in none).Tsa = alt2temp Altitude + d :=
  ⟨rfl, rfl⟩

/-- C2: design-point scaling evaluates the raw map at
`(Ncmapdes, Betamapdes)` and sets `SF_Nc = Ncdes/Ncmapdes`,
`SF_Wc = Wcdes/Wcmap`, `SF_Eta = Etades/Etamap`,
`SF_PR = (PRdes-1)/(PRmap-1)`; every subsequent
`GetScaledMapPerformance Nc beta_state` call evaluates the raw map at
`Nc_map = Nc/SF_Nc`, `beta_map = beta_state * Betamapdes` and returns
`Wc = SF_Wc * Wc_map * SF_Wc_deter`, `Eta = SF_Eta * eta_map * SF_Eta_deter`
and `PR = SF_PR * (PR_map - 1) * SF_PR_deter + 1`. -/
theorem turbomap_scaling_spec (m : TTurboMap K) (Ncdes Wcdes PRdes Etades : K) :
    (ReadMapAndSetScaling m Ncdes Wcdes PRdes Etades).SFmap_Nc = Ncdes / m.Ncmapdes ∧
    (ReadMapAndSetScaling m Ncdes Wcdes PRdes Etades).SFmap_Wc =
      Wcdes / m.get_map_wc m.Ncmapdes m.Betamapdes ∧
    (ReadMapAndSetScaling m Ncdes Wcdes PRdes Etades).SFmap_Eta =
      Etades / m.get_map_eta m.Ncmapdes m.Betamapdes ∧
    (ReadMapAndSetScaling m Ncdes Wcdes PRdes Etades).SFmap_PR =
      (PRdes - 1) / (m.get_map_pr m.Ncmapdes m.Betamapdes - 1) ∧
    ∀ (m1 : TTurboMap K) (Nc Beta_state : K),
      (GetScaledMapPerformance m1 Nc Beta_state).2 =
        (m1.SFmap_Wc * m1.get_map_wc (Nc / m1.SFmap_Nc) (Beta_state * m1.Betamapdes) *
            m1.SF_wc_deter,
          m1.SFmap_PR *
              (m1.get_map_pr (Nc / m1.SFmap_Nc) (Beta_state * m1.Betamapdes) - 1) *
              m1.SF_pr_deter + 1,
          m1.SFmap_Eta * m1.get_map_eta (Nc / m1.SFmap_Nc) (Beta_state * m1.Betamapdes) *
            m1.SF_eta_deter) :=
  ⟨rfl, rfl, rfl, rfl, fun _ _ _ => rfl⟩

/-- C3: with deterioration factors at their default value 1, after
design-point scaling the scaled evaluation at `beta_state = 1`,
`Nc = Ncdes` returns exactly the declared design values
`(Wcdes, PRdes, Etades)`. -/
theorem compressor_design_point_roundtrip (m : TTurboMap K)
    (Ncdes Wcdes PRdes Etades : K)
    (hwdet : m.SF_wc_deter = 1) (hedet : m.SF_eta_deter = 1)
    (hpdet : m.SF_pr_deter = 1)
    (hNcdes : Ncdes ≠ 0) (hNcmap : m.Ncmapdes ≠ 0)
    (hWcmap : m.get_map_wc m.Ncmapdes m.Betamapdes ≠ 0)
    (hEtamap : m.get_map_eta m.Ncmapdes m.Betamapdes ≠ 0)
    (hPRmap : m.get_map_pr m.Ncmapdes m.Betamapdes ≠ 1) :
    (GetScaledMapPerformance (ReadMapAndSetScaling m Ncdes Wcdes PRdes Etades)
        Ncdes 1).2 = (Wcdes, PRdes, Etades) := by
  have hfrac : Ncdes / (Ncdes / m.Ncmapdes) = m.Ncmapdes := by
    rw [div_div_eq_mul_div, mul_comm, mul_div_cancel_right₀ _ hNcdes]
  simp only [GetScaledMapPerformance, ReadMapAndSetScaling, hfrac, one_mul,
    hwdet, hedet, hpdet, mul_one, Prod.mk.injEq]
  refine ⟨div_mul_cancel₀ _ hWcmap, ?_, div_mul_cancel₀ _ hEtamap⟩
  rw [div_mul_cancel₀ _ (sub_ne_zero.mpr hPRmap)]
  ring

/-- Witness for C3 at a concrete map and design point. -/
theorem compressor_design_point_roundtrip_witness :
    (GetScaledMapPerformance (ReadMapAndSetScaling sampleMap 4 10 7 (9 / 10))
        4 1).2 = ((10 : ℚ), 7, 9 / 10) :=
  compressor_design_point_roundtrip sampleMap 4 10 7 (9 / 10) rfl rfl rfl
    (by norm_num) (by norm_num [sampleMap]) (by norm_num [sampleMap])
    (by norm_num [sampleMap]) (by norm_num [sampleMap])

/-- C7: a duct evaluated off-design applies
`PR = 1 - (1 - PRdes) * (Wc/Wcdes)^2` (so at `Wc = Wcdes` it equals
`PRdes`), and a duct's `Run` appends no entry to the state vector and none
to the error vector in any mode. -/
theorem duct_pressure_loss (sqrtK : K → K) (c : TDuct K) (mode : Mode)
    (gasIn : GasQ K) (states errors : List K) :
    (TDuct_Run sqrtK c mode gasIn states errors).states = states ∧
    (TDuct_Run sqrtK c mode gasIn states errors).errors = errors ∧
    (TDuct_Run sqrtK c Mode.OD gasIn states errors).comp.PR =
      1 - (1 - c.PRdes) *
        (gasIn.mass * GetFlowCorrectionFactor sqrtK gasIn / c.Wcdes) ^ 2 ∧
    (c.Wcdes ≠ 0 → gasIn.mass * GetFlowCorrectionFactor sqrtK gasIn = c.Wcdes →
      (TDuct_Run sqrtK c Mode.OD gasIn states errors).comp.PR = c.PRdes) := by
  refine ⟨by cases mode <;> rfl, by cases mode <;> rfl, rfl, fun hW hwc => ?_⟩
  have h1 : (TDuct_Run sqrtK c Mode.OD gasIn states errors).comp.PR =
      1 - (1 - c.PRdes) *
        (gasIn.mass * GetFlowCorrectionFactor sqrtK gasIn / c.Wcdes) ^ 2 := rfl
  rw [h1, hwc, div_self hW]
  ring

/-- Witness for C7: a duct at its design corrected flow recovers `PRdes`. -/
theorem duct_pressure_loss_witness :
    (TDuct_Run (K := ℚ) id ⟨1 / 2, 2, 0, 1⟩ Mode.OD ⟨2, T_std, P_std⟩ [] []).comp.PR =
      1 / 2 :=
  (duct_pressure_loss id ⟨1 / 2, 2, 0, 1⟩ Mode.OD ⟨2, T_std, P_std⟩ [] []).2.2.2
    (by norm_num) (by norm_num [GetFlowCorrectionFactor, T_std, P_std])

/-- C5 counterexample: a concrete design-point run of `TInlet.Run` appends
one state but leaves the error vector empty, refuting the claim that the
inlet also appends one residual. -/
theorem inlet_no_residual_counterexample :
    (TInlet_Run (K := ℚ) id ⟨1, 1, 0, 0, 1, 0⟩ Mode.DP ⟨1, T_std, P_std⟩
        [] [] 0 0).states.length = 1 ∧
    (TInlet_Run (K := ℚ) id ⟨1, 1, 0, 0, 1, 0⟩ Mode.DP ⟨1, T_std, P_std⟩
        [] [] 0 0).errors.length = 0 := by
  constructor <;> rfl

/-- C5 amended: during the DP pass an Inlet appends exactly one free state
(with value 1) to the state vector and appends nothing to the error vector
(the corrected-flow residual is registered by downstream components), and
it applies its constant design pressure ratio `PRdes` to the incoming
state while accumulating ram drag into the system total. -/
theorem inlet_dp_registration (sqrtK : K → K) (c : TInlet K) (gasIn : GasQ K)
    (states errors : List K) (RD_sys V_flight : K) :
    (TInlet_Run sqrtK c Mode.DP gasIn states errors RD_sys V_flight).states =
      states ++ [1] ∧
    (TInlet_Run sqrtK c Mode.DP gasIn states errors RD_sys V_flight).errors =
      errors ∧
    (TInlet_Run sqrtK c Mode.DP gasIn states errors RD_sys V_flight).gasOut.P =
      gasIn.P * c.PRdes ∧
    (TInlet_Run sqrtK c Mode.DP gasIn states errors RD_sys V_flight).gasOut.T =
      gasIn.T ∧
    (TInlet_Run sqrtK c Mode.DP gasIn states errors RD_sys V_flight).RD_sys =
      RD_sys + c.Wdes * V_flight :=
  ⟨rfl, rfl, rfl, rfl, rfl⟩

/-- C4 counterexample: in the polytropic branch the code assigns
`sOut = sIn + R*ln(PR)*(1/eta - 1)`, not the claimed
`sOut = sIn - R*ln(PR)*(1/eta - 1)`: at `PR = e`, `eta = 1/2`, `R = 1`,
`sIn = 0` the code produces `sOut = 1` while the claimed formula gives
`-1`. -/
theorem compression_polytropic_sign_counterexample :
    (Compression sampleGasLib Real.log sampleEosQ sampleEosQ (Real.exp 1)
        (1 / 2) 1 true).1.s ≠
      sampleEosQ.s - 1 * Real.log (Real.exp 1) * (1 / (1 / 2) - 1) := by
  have h1 : (Compression sampleGasLib Real.log sampleEosQ sampleEosQ (Real.exp 1)
      (1 / 2) 1 true).1.s = 0 + 1 * Real.log (Real.exp 1) * (1 / (1 / 2) - 1) := rfl
  rw [h1]
  norm_num [Real.log_exp, sampleEosQ]

/-- C4 amended: in the polytropic branch `Compression` assigns
`sOut = sIn + R*ln(PR)*(1/eta - 1)` (plus sign) at `Pout = Pin*PR`; in both
branches the returned shaft power equals `(hOut - hIn) * mdotOut`, where
`mdotOut` is the output quantity's mass flow. -/
theorem compression_power_and_polytropic_entropy (lib : GasLib K)
    (logK : K → K) (gasIn gasOut : EosQ K) (PR Eta R : K) :
    (Compression lib logK gasIn gasOut PR Eta R true).1.s =
      gasIn.s + R * logK PR * (1 / Eta - 1) ∧
    (Compression lib logK gasIn gasOut PR Eta R true).1.P = gasIn.P * PR ∧
    (Compression lib logK gasIn gasOut PR Eta R false).1.P = gasIn.P * PR ∧
    ∀ b : Bool,
      (Compression lib logK gasIn gasOut PR Eta R b).2 =
        ((Compression lib logK gasIn gasOut PR Eta R b).1.h - gasIn.h) *
          (Compression lib logK gasIn gasOut PR Eta R b).1.mass ∧
      (Compression lib logK gasIn gasOut PR Eta R b).1.mass = gasOut.mass := by
  refine ⟨rfl, rfl, rfl, fun b => ?_⟩
  cases b <;> refine ⟨?_, rfl⟩ <;> simp [Compression] <;> ring

/-- Helper: two shaft lists with the same shaft numbers reset to the same
list. -/
theorem map_resetShaft_congr {l1 l2 : List (Shaft K)}
    (h : l1.map Shaft.ShaftNr = l2.map Shaft.ShaftNr) :
    l1.map resetShaft = l2.map resetShaft := by
  induction l1 generalizing l2 with
  | nil =>
    cases l2 with
    | nil => rfl
    | cons b t => simp at h
  | cons a t ih =>
    cases l2 with
    | nil => simp at h
    | cons b t2 =>
      simp only [List.map_cons, List.cons.injEq] at h ⊢
      exact ⟨by simp only [resetShaft]; rw [h.1], ih h.2⟩

/-- C10: at the start of every forward evaluation `Do_Run` zeroes the
aggregate totals `FG`, `FN`, `RD`, `WF` and every shaft's running power sum
before any component runs (via `reinit_system`), so the result of an
evaluation is independent of whatever aggregate values earlier evaluations
left behind. -/
theorem do_run_resets_aggregates {α : Type} (system_model : List (Component K α))
    (addSysOut : SysState K α → SysState K α) (states_par : List K)
    (s1 s2 : SysState K α)
    (herr : s1.errors = s2.errors) (henv : s1.env = s2.env)
    (hsh : s1.shafts.map Shaft.ShaftNr = s2.shafts.map Shaft.ShaftNr) :
    (reinit_system { s1 with states := states_par }).FG = 0 ∧
    (reinit_system { s1 with states := states_par }).FN = 0 ∧
    (reinit_system { s1 with states := states_par }).RD = 0 ∧
    (reinit_system { s1 with states := states_par }).WF = 0 ∧
    (∀ sh ∈ (reinit_system { s1 with states := states_par }).shafts,
      sh.PW_sum = 0) ∧
    Do_Run system_model addSysOut states_par s1 =
      Do_Run system_model addSysOut states_par s2 := by
  have hkey : reinit_system { s1 with states := states_par } =
      reinit_system { s2 with states := states_par } := by
    exact SysState.ext rfl herr rfl rfl rfl rfl (map_resetShaft_congr hsh) henv
  refine ⟨rfl, rfl, rfl, rfl, ?_, ?_⟩
  · intro sh hmem
    simp only [reinit_system, List.mem_map] at hmem
    obtain ⟨a, _, rfl⟩ := hmem
    rfl
  · unfold Do_Run
    rw [hkey]

/-- Witness for C10: two concrete global records differing in their
aggregate totals, power sums and previous state vector give the same
evaluation result. -/
theorem do_run_resets_aggregates_witness :
    (reinit_system { sampleSys1 with states := [1] }).FG = 0 ∧
    (reinit_system { sampleSys1 with states := [1] }).FN = 0 ∧
    (reinit_system { sampleSys1 with states := [1] }).RD = 0 ∧
    (reinit_system { sampleSys1 with states := [1] }).WF = 0 ∧
    (∀ sh ∈ (reinit_system { sampleSys1 with states := [1] }).shafts,
      sh.PW_sum = 0) ∧
    Do_Run [] id [1] sampleSys1 = Do_Run [] id [1] sampleSys2 :=
  do_run_resets_aggregates [] id [1] sampleSys1 sampleSys2 rfl rfl rfl

/-- C1 counterexample: a three-point OD sweep whose second point's residual
evaluation raises inside the nozzle throat-pressure root solve.  The point
is flagged as an exception, but the sweep terminates: the third point gets
no output row at all, refuting the claim that the solver proceeds to
evaluate all subsequent points. -/
theorem run_od_sweep_truncation_counterexample :
    Run_OD_points sweepEval 1 (1 : ℚ) [0, 1, 2] =
      [(0, ErrCode.NoError), (1, ErrCode.ExceptionError)] ∧
    ∀ r ∈ Run_OD_points sweepEval 1 (1 : ℚ) [0, 1, 2], r.1 ≠ 2 := by
  have hexp : calculate_expansion_to_A id failNozzleGas 0 1 2 1 =
      Except.error RootFindFailure.throatPressureNoConvergence := by
    simp only [calculate_expansion_to_A, failNozzleGas, id]
    norm_num
  have h0 : sweepEval 0 (1 : ℚ) = Except.ok (1, true) := rfl
  have h2 : sweepEval 1 (1 : ℚ) =
      Except.error RootFindFailure.throatPressureNoConvergence := by
    simp [sweepEval, hexp]
  constructor
  · simp [Run_OD_points, h0, h2]
  · intro r hr
    simp [Run_OD_points, h0, h2] at hr
    rcases hr with h | h <;> simp [h]

/-- C1 amended: in `Run_OD_simulation` an exception raised by a point's
residual evaluation (for example an inner root-find failure) flags that
point's output row as an exception and terminates the remainder of the
sweep, because the `try` block wraps the whole point loop; only a
non-exception solver non-convergence is flagged and followed by the next
point, warm-started from the last trial state vector, and a sweep whose
evaluations never raise produces one output row per point. -/
theorem run_od_inner_failure_policy {σ : Type}
    (evalPoint : ℕ → σ → Except RootFindFailure (σ × Bool)) (interval : ℕ) :
    (∀ (st : σ) (p : ℕ) (ps : List ℕ) (e : RootFindFailure),
      evalPoint p st = Except.error e →
      Run_OD_points evalPoint interval st (p :: ps) =
        [(p, ErrCode.ExceptionError)]) ∧
    (∀ (st st1 : σ) (p : ℕ) (ps : List ℕ) (success : Bool),
      evalPoint p st = Except.ok (st1, success) →
      Run_OD_points evalPoint interval st (p :: ps) =
        (if p % interval = 0 then
          [(p, if success then ErrCode.NoError else ErrCode.ConvergenceError)]
        else []) ++ Run_OD_points evalPoint interval st1 ps) ∧
    (∀ (st : σ) (ps : List ℕ),
      (∀ (p : ℕ) (s : σ), ∃ r, evalPoint p s = Except.ok r) →
      (Run_OD_points evalPoint 1 st ps).length = ps.length) := by
  refine ⟨?_, ?_, ?_⟩
  · intro st p ps e h
    simp [Run_OD_points, h]
  · intro st st1 p ps success h
    simp [Run_OD_points, h]
  · intro st ps h
    induction ps generalizing st with
    | nil => rfl
    | cons p ps ih =>
      obtain ⟨⟨st1, b⟩, hb⟩ := h p st
      simp [Run_OD_points, hb, ih st1, Nat.mod_one]

/-- Witness for C1's amended statement on concrete sweeps: an immediately
raising evaluation truncates to a single exception row, a succeeding
evaluation emits its row and continues, and an exception-free two-point
sweep has two rows. -/
theorem run_od_inner_failure_policy_witness :
    Run_OD_points alwaysRaiseEval 1 (0 : ℚ) [3, 4] =
      [(3, ErrCode.ExceptionError)] ∧
    Run_OD_points alwaysOkEval 1 (0 : ℚ) [3, 4] =
      [(3, ErrCode.NoError)] ++ Run_OD_points alwaysOkEval 1 (0 : ℚ) [4] ∧
    (Run_OD_points alwaysOkEval 1 (0 : ℚ) [3, 4]).length = 2 := by
  refine ⟨(run_od_inner_failure_policy alwaysRaiseEval 1).1 0 3 [4] _ rfl, ?_,
    (run_od_inner_failure_policy alwaysOkEval 1).2.2 0 [3, 4]
      (fun p s => ⟨(s, true), rfl⟩)⟩
  have h := (run_od_inner_failure_policy alwaysOkEval 1).2.1 0 0 3 [4] true rfl
  simpa using h

/-- Helper: the air composition of sys_global.py has total mass 1. -/
theorem airComposition_total : (airComposition (K := K)).total = 1 := by
  norm_num [airComposition, Composition.total]

/-- Helper: air is already normalized. -/
theorem airComposition_normalize :
    (airComposition (K := K)).normalize = airComposition := by
  rw [Composition.normalize, airComposition_total]
  norm_num [Composition.scale, airComposition]

/-- Helper: normalization is invariant under scaling all species masses by
a nonzero factor. -/
theorem normalize_scale (a : K) (c : Composition K) (ha : a ≠ 0) :
    (Composition.scale a c).normalize = c.normalize := by
  have hden : a * c.o2 + a * c.co2 + a * c.h2o + a * c.ar + a * c.n2 =
      a * (c.o2 + c.co2 + c.h2o + c.ar + c.n2) := by ring
  simp only [Composition.normalize, Composition.scale, Composition.total,
    Composition.mk.injEq, one_div]
  rw [hden]
  refine ⟨?_, ?_, ?_, ?_, ?_⟩ <;>
    rw [inv_mul_eq_div, inv_mul_eq_div, mul_div_mul_left _ _ ha]

/-- Helper: with zero fuel flow the synthesized product composition is the
incoming air, scaled by the air mass flow. -/
theorem LHV_products_zero (mech : MechConstants K) (w HCratio OCratio : K) :
    LHV_products mech 0 w HCratio OCratio =
      Composition.scale w airComposition := by
  simp [LHV_products, Composition.scale, airComposition]

/-- C6: a combustor in LHV fuel mode evaluated with `Wf = 0` and no
Rayleigh reference cross-section acts as a pure pressure-drop duct: the
exit pressure is `Pin * PRdes` and the exit temperature equals the inlet
temperature exactly (and the mass flow is unchanged).  The hypotheses are
the contracts of the external real-gas library: the `HP` assignment
recovers the temperature whose enthalpy is the target, and air is a fixed
point of `equilibrate('HP')`. -/
theorem combustor_zero_fuel_duct (lib : ThermoLib K) (mech : MechConstants K)
    (rayleighPR : K → K) (LHV Etades HCratio OCratio : K)
    (gasIn : GasState K) (PRdes : K)
    (hTfromH : ∀ T Y, lib.TfromH (lib.h T Y) Y = T)
    (heqHP : ∀ x P, lib.eqHP x P (airComposition (K := K)) = airComposition)
    (hY : gasIn.Y = airComposition)
    (hm : gasIn.mass ≠ 0) :
    (CalcEndConditions_LHV lib mech rayleighPR 0 LHV Etades HCratio OCratio
        none gasIn PRdes (h_air_ref lib)).T = gasIn.T ∧
    (CalcEndConditions_LHV lib mech rayleighPR 0 LHV Etades HCratio OCratio
        none gasIn PRdes (h_air_ref lib)).P = gasIn.P * PRdes ∧
    (CalcEndConditions_LHV lib mech rayleighPR 0 LHV Etades HCratio OCratio
        none gasIn PRdes (h_air_ref lib)).mass = gasIn.mass := by
  have hYprod :
      (LHV_products mech 0 gasIn.mass HCratio OCratio).normalize =
        airComposition := by
    rw [LHV_products_zero, normalize_scale _ _ hm, airComposition_normalize]
  have harith : (0 * LHV * 1000 * Etades +
      gasIn.mass * (lib.h gasIn.T airComposition -
        lib.h T_standard_ref airComposition)) / (gasIn.mass + 0) +
      lib.h T_standard_ref airComposition = lib.h gasIn.T airComposition := by
    rw [zero_mul, zero_mul, zero_mul, zero_add, add_zero,
      mul_div_cancel_left₀ _ hm]
    ring
  simp only [CalcEndConditions_LHV, hYprod, hY, h_air_ref,
    airComposition_normalize]
  rw [harith]
  simp only [hTfromH, heqHP]
  exact ⟨trivial, by rw [mul_one], by rw [add_zero]⟩

/-- Witness for C6 with a concrete trivial gas library and inlet state. -/
theorem combustor_zero_fuel_duct_witness :
    (CalcEndConditions_LHV idThermoLib unitMech id 0 43031 1 (19 / 10) 0
        none sampleCombustorIn 3 (h_air_ref idThermoLib)).T = 300 ∧
    (CalcEndConditions_LHV idThermoLib unitMech id 0 43031 1 (19 / 10) 0
        none sampleCombustorIn 3 (h_air_ref idThermoLib)).P = 2 * 3 ∧
    (CalcEndConditions_LHV idThermoLib unitMech id 0 43031 1 (19 / 10) 0
        none sampleCombustorIn 3 (h_air_ref idThermoLib)).mass = 1 :=
  combustor_zero_fuel_duct idThermoLib unitMech id 43031 1 (19 / 10) 0
    sampleCombustorIn 3 (fun _ _ => rfl) (fun _ _ => rfl) rfl
    (by norm_num [sampleCombustorIn])

end GSPy
